import Mathlib

/-!
Verification of the MSL ciphertext-envelope codec
(`src/main/javascript/crypto/MslCiphertextEnvelope.js`) and the RSA crypto
context (`src/main/javascript/crypto/RsaCryptoContext.js`) against the
repository's natural-language specification.

The JavaScript is shallowly embedded: JavaScript values that the code
inspects (via `typeof`, truthiness, loose equality) are modelled by the
inductive `Msl.JSValue`; the external base64 codec and text/JSON transport
are modelled abstractly but executably (see `Msl.JStr` and `Msl.BytesV`);
asynchronous operations are modelled by their synchronous phase, which runs
up to delivery of a result, delivery of an error, or the single call into
the asynchronous crypto-primitive provider (`Msl.SyncStep`).
-/

namespace Msl

/-- Raw byte sequences (JavaScript `Uint8Array` contents). -/
abbrev Bytes := List Nat

/-- Model of JavaScript strings as the envelope code observes them.

The base64 encoder/decoder is an external collaborator (out of scope per the
spec), so base64 text is represented abstractly by the byte sequence it
decodes to: `b64 b` is the base64 text of the bytes `b` (the empty text when
`b = []`), while `plain s` is an ordinary string, treated as undecodable
base64 unless empty (the empty string decodes to the empty byte sequence).
The code never feeds a claim-relevant `plain` string to the decoder, so this
abstraction is faithful on every path the claims exercise. -/
inductive JStr where
  | plain (s : String)
  | b64 (b : Bytes)
deriving DecidableEq, Repr

/-- External collaborator: base64 encoding of a byte sequence. -/
def base64encode (b : Bytes) : JStr := .b64 b

/-- External collaborator: base64 decoding; `none` models a thrown decode
error. The empty string decodes to the empty byte sequence. -/
def base64decode : JStr → Option Bytes
  | .b64 b => some b
  | .plain s => if s = "" then some [] else none

/-- JavaScript string truthiness: only the empty string is falsy. -/
def JStr.truthy : JStr → Bool
  | .plain s => !(s = "")
  | .b64 b => !(b = [])

/-- JavaScript `ToNumber` on strings, restricted to the forms the modelled
code can meet: the empty string converts to 0, an unsigned decimal numeral
to its value, anything else to NaN (`none`). -/
def JStr.toNumber : JStr → Option Int
  | .plain s => if s = "" then some 0 else (s.toNat?).map (fun n => (n : Int))
  | .b64 b => if b = [] then some 0 else none

/-- Model of the JavaScript values the envelope code inspects. JavaScript
`null` and `undefined` are identified as `undefined`: the embedded code only
ever observes their (identical) truthiness and `typeof`-class. -/
inductive JSValue where
  | undefined
  | bool (b : Bool)
  | num (n : Int)
  | nan
  | str (s : JStr)
  | bytes (b : Bytes)
deriving DecidableEq, Repr

/-- JavaScript truthiness. Objects (`bytes`, i.e. `Uint8Array`) are always
truthy, even when empty. -/
def JSValue.truthy : JSValue → Bool
  | .undefined => false
  | .bool b => b
  | .num n => !(n = 0)
  | .nan => false
  | .str s => s.truthy
  | .bytes _ => true

/-- `typeof v === 'string'`. -/
def JSValue.isString : JSValue → Bool
  | .str _ => true
  | _ => false

/-- `typeof v === 'number'` (NaN is of number type). -/
def JSValue.isNumberType : JSValue → Bool
  | .num _ => true
  | .nan => true
  | _ => false

/-- JavaScript loose equality `v == 2`, as used by the version check of the
V2 parse branch. -/
def jsLooseEqTwo : JSValue → Bool
  | .num n => n = 2
  | .bool _ => false
  | .str s => s.toNumber = some 2
  | .bytes b =>
    match b with
    | [] => false
    | [x] => (x : Int) = 2
    | _ => false
  | .nan => false
  | .undefined => false

/-- A parsed JSON object: an association list from field name to value;
missing fields read as `undefined`. -/
abbrev JsonObj := List (String × JSValue)

/-- Field lookup on a JSON object (`jsonObj[key]`). -/
def jget : JsonObj → String → JSValue
  | [], _ => .undefined
  | (k, v) :: rest, key => if k = key then v else jget rest key

/-- The MSL error codes the embedded code raises. -/
inductive MslError where
  | UNIDENTIFIED_CIPHERTEXT_ENVELOPE
  | UNSUPPORTED_CIPHERTEXT_ENVELOPE
  | UNIDENTIFIED_CIPHERSPEC
  | JSON_PARSE_ERROR
  | CIPHERTEXT_ENVELOPE_PARSE_ERROR
  | CIPHERTEXT_ENVELOPE_ENCODE_ERROR
  | ENVELOPE_KEY_ID_MISMATCH
  | ENCRYPT_NOT_SUPPORTED
  | DECRYPT_NOT_SUPPORTED
  | WRAP_NOT_SUPPORTED
  | UNWRAP_NOT_SUPPORTED
  | SIGN_NOT_SUPPORTED
  | VERIFY_NOT_SUPPORTED
  | ENCRYPT_ERROR
  | DECRYPT_ERROR
  | WRAP_ERROR
  | UNWRAP_ERROR
  | SIGNATURE_ERROR
deriving DecidableEq, Repr

/-- The exception classes surfaced across the boundary: `MslCryptoException`
(the spec's ProtocolMismatchError / CapabilityUnavailableError /
CryptoOperationError carriers), `MslEncodingException` (EncodingError) and
`MslInternalException` (InternalError). -/
inductive MslException where
  | cryptoEx (e : MslError)
  | encodingEx (e : MslError)
  | internalEx
deriving DecidableEq, Repr

/-- Modelled from the spec: `MslConstants$CipherSpec` is not part of this
repository; spec section 3 describes it as a closed enumeration of
recognized algorithm/mode/padding combinations, currently containing only
AES-CBC with PKCS#5 padding. -/
inductive CipherSpec where
  | AES_CBC_PKCS5Padding
deriving DecidableEq, Repr

/-- The wire string of a cipher specification. -/
def CipherSpec.toStr : CipherSpec → JStr
  | .AES_CBC_PKCS5Padding => .plain "AES/CBC/PKCS5Padding"

/-- Modelled from the spec: `MslConstants$CipherSpec$fromString` maps a
string to the recognized enumeration value it equals, if any. -/
def CipherSpec.fromString (s : JStr) : Option CipherSpec :=
  if s = CipherSpec.toStr .AES_CBC_PKCS5Padding then some .AES_CBC_PKCS5Padding
  else none

/-- Envelope versions (`MslCiphertextEnvelope$Version`): V1 = 1, V2 = 2. -/
inductive Version where
  | V1
  | V2
deriving DecidableEq, Repr

/-- The numeric value of a version enumeration member. -/
def Version.num : Version → Int
  | .V1 => 1
  | .V2 => 2

/-- A ciphertext envelope as constructed by `MslCiphertextEnvelope`'s
constructor: the `iv` property holds whatever JavaScript value the
constructor received (a byte array, a falsy string, or null/undefined). -/
structure MslCiphertextEnvelope where
  version : Int
  keyId : Option JStr
  cipherSpec : Option CipherSpec
  iv : JSValue
  ciphertext : Bytes
deriving DecidableEq, Repr

/-- The `MslCiphertextEnvelope` constructor (`init`): the version is
determined by whether the first parameter equals a recognized cipher
specification value (V2) or not (V1, treated as a key identifier). -/
def MslCiphertextEnvelope.init (keyIdOrSpec : JStr) (iv : JSValue)
    (ciphertext : Bytes) : MslCiphertextEnvelope :=
  match CipherSpec.fromString keyIdOrSpec with
  | some cs =>
    { version := 2, keyId := none, cipherSpec := some cs, iv := iv,
      ciphertext := ciphertext }
  | none =>
    { version := 1, keyId := some keyIdOrSpec, cipherSpec := none, iv := iv,
      ciphertext := ciphertext }

/-- The optional iv parameter of `MslCiphertextEnvelope$create` as the
constructor receives it. -/
def ivOfOpt : Option Bytes → JSValue
  | none => .undefined
  | some b => .bytes b

/-- `MslCiphertextEnvelope$create`. -/
def MslCiphertextEnvelope.create (keyIdOrSpec : JStr) (iv : Option Bytes)
    (ciphertext : Bytes) : MslCiphertextEnvelope :=
  MslCiphertextEnvelope.init keyIdOrSpec (ivOfOpt iv) ciphertext

/-- The external base64 encoder applied to the envelope's `iv` property, as
`toJSON` does on the truthy-iv path. A truthy iv is a byte array on every
reachable path; applying the external encoder to any other value is outside
the modelled domain and is given a fixed string. -/
def base64encodeVal : JSValue → JStr
  | .bytes b => base64encode b
  | _ => .plain "unmodelled"

/-- The JSON value of the envelope's key identifier property. -/
def keyIdVal : Option JStr → JSValue
  | some s => .str s
  | none => .undefined

/-- The JSON value of the envelope's cipher-specification property. -/
def cipherSpecVal : Option CipherSpec → JSValue
  | some cs => .str cs.toStr
  | none => .undefined

/-- `MslCiphertextEnvelope.toJSON`: emits fields per version; V1 emits the
fixed placeholder string "AA==" as the `sha256` field; an unrecognized
version raises `MslInternalException`. -/
def MslCiphertextEnvelope.toJSON (e : MslCiphertextEnvelope) :
    Except MslException JsonObj :=
  if e.version = 1 then
    .ok ([("keyid", keyIdVal e.keyId)]
      ++ (if e.iv.truthy then [("iv", JSValue.str (base64encodeVal e.iv))] else [])
      ++ [("ciphertext", JSValue.str (base64encode e.ciphertext)),
          ("sha256", JSValue.str (.plain "AA=="))])
  else if e.version = 2 then
    .ok ([("version", JSValue.num e.version),
          ("cipherspec", cipherSpecVal e.cipherSpec)]
      ++ (if e.iv.truthy then [("iv", JSValue.str (base64encodeVal e.iv))] else [])
      ++ [("ciphertext", JSValue.str (base64encode e.ciphertext))])
  else
    .error .internalEx

/-- Version determination of `MslCiphertextEnvelope$parse`: with no version
hint, the `version` field is read; a falsy (0, NaN, absent, empty-string),
non-number-typed or NaN value defaults to V1; otherwise the number must
equal a recognized `Version` member (1 or 2) or the parse fails with
`UNIDENTIFIED_CIPHERTEXT_ENVELOPE`. -/
def determineVersion (jsonObj : JsonObj) : Option Version →
    Except MslException Int
  | some v => .ok v.num
  | none =>
    match jget jsonObj "version" with
    | .num n =>
      if n = 0 then .ok 1
      else if n = 1 ∨ n = 2 then .ok n
      else .error (.cryptoEx .UNIDENTIFIED_CIPHERTEXT_ENVELOPE)
    | _ => .ok 1

/-- Per-version field validation and key-id / cipher-spec extraction of
`MslCiphertextEnvelope$parse`. -/
def parseKeyIdOrSpec (jsonObj : JsonObj) (version : Int) :
    Except MslException JStr :=
  if version = 1 then
    match jget jsonObj "keyid" with
    | .str s =>
      if ((jget jsonObj "iv").truthy && !(jget jsonObj "iv").isString)
          || !(jget jsonObj "ciphertext").isString
          || !(jget jsonObj "sha256").isString then
        .error (.encodingEx .JSON_PARSE_ERROR)
      else .ok s
    | _ => .error (.encodingEx .JSON_PARSE_ERROR)
  else if version = 2 then
    if jsLooseEqTwo (jget jsonObj "version") = false then
      .error (.cryptoEx .UNIDENTIFIED_CIPHERTEXT_ENVELOPE)
    else
      match jget jsonObj "cipherspec" with
      | .str s =>
        if ((jget jsonObj "iv").truthy && !(jget jsonObj "iv").isString)
            || !(jget jsonObj "ciphertext").isString then
          .error (.encodingEx .JSON_PARSE_ERROR)
        else
          match CipherSpec.fromString s with
          | none => .error (.cryptoEx .UNIDENTIFIED_CIPHERSPEC)
          | some cs => .ok cs.toStr
      | _ => .error (.encodingEx .JSON_PARSE_ERROR)
  else .error (.cryptoEx .UNSUPPORTED_CIPHERTEXT_ENVELOPE)

/-- Base64 conversion step of `MslCiphertextEnvelope$parse`: a truthy `iv`
is decoded (a falsy one is kept as-is), the `ciphertext` is always decoded;
a decode failure raises `CIPHERTEXT_ENVELOPE_PARSE_ERROR`. -/
def decodeIvCt (jsonObj : JsonObj) : Except MslException (JSValue × Bytes) :=
  let iv := jget jsonObj "iv"
  let decIv : Option JSValue :=
    if iv.truthy then
      match iv with
      | .str s => (base64decode s).map .bytes
      | _ => none
    else some iv
  let decCt : Option Bytes :=
    match jget jsonObj "ciphertext" with
    | .str s => base64decode s
    | _ => none
  match decIv, decCt with
  | some i, some c => .ok (i, c)
  | _, _ => .error (.cryptoEx .CIPHERTEXT_ENVELOPE_PARSE_ERROR)

/-- `MslCiphertextEnvelope$parse`. -/
def MslCiphertextEnvelope.parse (jsonObj : JsonObj)
    (version? : Option Version) : Except MslException MslCiphertextEnvelope :=
  match determineVersion jsonObj version? with
  | .error e => .error e
  | .ok version =>
    match parseKeyIdOrSpec jsonObj version with
    | .error e => .error e
    | .ok keyIdOrSpec =>
      match decodeIvCt jsonObj with
      | .error e => .error e
      | .ok (ivVal, ctBytes) =>
        .ok (MslCiphertextEnvelope.init keyIdOrSpec ivVal ctBytes)

/-- Opaque handle to raw key material (the `rawKey` of a key object). -/
abbrev RawKey := Nat

/-- `RsaCryptoContext$Mode`. -/
inductive RsaMode where
  | ENCRYPT_DECRYPT_OAEP
  | ENCRYPT_DECRYPT_PKCS1
  | WRAP_UNWRAP_OAEP
  | WRAP_UNWRAP_PKCS1
  | SIGN_VERIFY
deriving DecidableEq, Repr

/-- Transform / algorithm selectors derived from the mode; `nullOp` is the
`NULL_OP` marker for a disabled operation group. -/
inductive Transform where
  | RSAES
  | RSA_OAEP
  | RSASSA_SHA256
  | nullOp
deriving DecidableEq, Repr

/-- Input or output of the byte-oriented operations: either raw bytes that
are not the text of a serialized JSON object (so `JSON.parse` throws a
`SyntaxError` on them), or the UTF-8 text of a serialized JSON object. -/
inductive BytesV where
  | raw (b : Bytes)
  | jsonText (o : JsonObj)
deriving DecidableEq, Repr

/-- The `length` of the input. The serialized text of a JSON object is never
empty (it is at least "\x7b\x7d"); the code only ever compares the length
with zero, so its exact value is immaterial and fixed at 2 here. -/
def bytesLen : BytesV → Nat
  | .raw b => b.length
  | .jsonText _ => 2

/-- A call into the asynchronous crypto-primitive provider (`mslCrypto`),
with the arguments the synchronous phase passes it. -/
inductive PrimOp where
  | encryptOp (t : Transform) (key : RawKey) (data : BytesV)
  | decryptOp (t : Transform) (key : RawKey) (ciphertext : Bytes)
  | wrapKeyOp (key : RawKey) (pk : RawKey) (t : Transform)
  | signOp (t : Transform) (key : RawKey) (data : BytesV)
  | verifyOp (t : Transform) (key : RawKey) (sig : Bytes) (data : BytesV)
deriving DecidableEq, Repr

/-- Outcome of the synchronous phase of an asynchronous operation: a result
delivered without touching the primitive provider, an error delivered
without touching the primitive provider, or the (single) call into the
provider. -/
inductive SyncStep (α : Type) where
  | result (a : α)
  | error (e : MslException)
  | primitive (op : PrimOp)
deriving DecidableEq, Repr

/-- An `RsaCryptoContext` after construction. -/
structure RsaCryptoContext where
  id : JStr
  privateKey : Option RawKey
  publicKey : Option RawKey
  transform : Transform
  wrapTransform : Transform
  algo : Transform
deriving DecidableEq, Repr

/-- The `RsaCryptoContext` constructor: the three transform selectors are
computed once from the mode; the key handles may be absent. -/
def RsaCryptoContext.init (id : JStr) (privateKey publicKey : Option RawKey)
    (mode : RsaMode) : RsaCryptoContext :=
  { id := id
    privateKey := privateKey
    publicKey := publicKey
    transform :=
      if mode = .ENCRYPT_DECRYPT_PKCS1 then .RSAES
      else if mode = .ENCRYPT_DECRYPT_OAEP then .RSA_OAEP
      else .nullOp
    wrapTransform :=
      if mode = .WRAP_UNWRAP_PKCS1 then .RSAES
      else if mode = .WRAP_UNWRAP_OAEP then .RSA_OAEP
      else .nullOp
    algo := if mode = .SIGN_VERIFY then .RSASSA_SHA256 else .nullOp }

/-- Synchronous phase of `RsaCryptoContext.encrypt`: inactive data transform
passes the input through; a missing public key fails; zero-length input is
returned unchanged; otherwise the asynchronous encrypt primitive is
invoked. -/
def RsaCryptoContext.encrypt (ctx : RsaCryptoContext) (data : BytesV) :
    SyncStep BytesV :=
  if ctx.transform = .nullOp then .result data
  else
    match ctx.publicKey with
    | none => .error (.cryptoEx .ENCRYPT_NOT_SUPPORTED)
    | some pk =>
      if bytesLen data = 0 then .result data
      else .primitive (.encryptOp ctx.transform pk data)

/-- Error continuation of `decrypt` for envelope-parse failures: an
`MslEncodingException` is re-wrapped as
`MslCryptoException(CIPHERTEXT_ENVELOPE_ENCODE_ERROR)`; an `MslException`
passes through. -/
def reclassifyDecryptError : MslException → MslException
  | .encodingEx _ => .cryptoEx .CIPHERTEXT_ENVELOPE_ENCODE_ERROR
  | e => e

/-- The `envelope.keyId != self.id` comparison of `decrypt` (negated): a
null key identifier never equals the context identity string; two strings
compare by value. -/
def keyIdMatches : Option JStr → JStr → Bool
  | some k, i => k = i
  | none, _ => false

/-- Synchronous phase of `RsaCryptoContext.decrypt`: inactive data transform
passes the input through; a missing private key fails; zero-length input is
returned unchanged; otherwise the input is decoded as text and parsed as an
envelope forced to V1, the embedded key identifier must equal the context
identity, and only then is the asynchronous decrypt primitive invoked. -/
def RsaCryptoContext.decrypt (ctx : RsaCryptoContext) (data : BytesV) :
    SyncStep BytesV :=
  if ctx.transform = .nullOp then .result data
  else
    match ctx.privateKey with
    | none => .error (.cryptoEx .DECRYPT_NOT_SUPPORTED)
    | some sk =>
      if bytesLen data = 0 then .result data
      else
        match data with
        | .raw _ => .error (.cryptoEx .CIPHERTEXT_ENVELOPE_PARSE_ERROR)
        | .jsonText jo =>
          match MslCiphertextEnvelope.parse jo (some .V1) with
          | .error e => .error (reclassifyDecryptError e)
          | .ok envlp =>
            if keyIdMatches envlp.keyId ctx.id then
              .primitive (.decryptOp ctx.transform sk envlp.ciphertext)
            else .error (.cryptoEx .ENVELOPE_KEY_ID_MISMATCH)

/-- Synchronous phase of `RsaCryptoContext.wrap`: an inactive wrap transform
or a missing public key fails explicitly (never a pass-through); otherwise
the asynchronous wrapKey primitive is invoked on the key's raw material. -/
def RsaCryptoContext.wrap (ctx : RsaCryptoContext) (key : RawKey) :
    SyncStep Bytes :=
  match ctx.publicKey with
  | none => .error (.cryptoEx .WRAP_NOT_SUPPORTED)
  | some pk =>
    if ctx.wrapTransform = .nullOp then .error (.cryptoEx .WRAP_NOT_SUPPORTED)
    else .primitive (.wrapKeyOp key pk ctx.wrapTransform)

/-- Synchronous phase of `RsaCryptoContext.sign`: an inactive signature
algorithm returns an empty byte sequence before any key check; a missing
private key fails; otherwise the asynchronous sign primitive is invoked. -/
def RsaCryptoContext.sign (ctx : RsaCryptoContext) (data : BytesV) :
    SyncStep Bytes :=
  if ctx.algo = .nullOp then .result []
  else
    match ctx.privateKey with
    | none => .error (.cryptoEx .SIGN_NOT_SUPPORTED)
    | some sk => .primitive (.signOp ctx.algo sk data)

/-- Modelled from the spec: `MslSignatureEnvelope` is not part of this
repository; spec section 6 describes it as a versioned container carrying
raw signature bytes, with V1 parsing forced by this core, so parsing yields
the raw signature bytes. -/
def mslSignatureEnvelopeParseV1 (b : Bytes) : Except MslException Bytes :=
  .ok b

/-- Synchronous phase of `RsaCryptoContext.verify`: an inactive signature
algorithm returns true unconditionally before any key check; a missing
public key fails; otherwise the signature is parsed as a signature envelope
forced to V1 and the asynchronous verify primitive is invoked. -/
def RsaCryptoContext.verify (ctx : RsaCryptoContext) (data : BytesV)
    (signature : Bytes) : SyncStep Bool :=
  if ctx.algo = .nullOp then .result true
  else
    match ctx.publicKey with
    | none => .error (.cryptoEx .VERIFY_NOT_SUPPORTED)
    | some pk =>
      match mslSignatureEnvelopeParseV1 signature with
      | .error e => .error e
      | .ok envSig => .primitive (.verifyOp ctx.algo pk envSig data)

/-- C4: for every RsaCryptoContext whose wrap transform is inactive (any
mode other than WRAP_UNWRAP_OAEP or WRAP_UNWRAP_PKCS1) and every key
handle, wrap delivers `MslCryptoException(WRAP_NOT_SUPPORTED)` — the
CapabilityUnavailableError of the spec's taxonomy — and never a success
result or the key's raw material: there is no pass-through for wrap. -/
theorem claim4_wrap_inactive_always_fails (id : JStr) (sk pk : Option RawKey)
    (mode : RsaMode) (h1 : mode ≠ .WRAP_UNWRAP_OAEP)
    (h2 : mode ≠ .WRAP_UNWRAP_PKCS1) (key : RawKey) :
    (RsaCryptoContext.init id sk pk mode).wrap key =
      .error (.cryptoEx .WRAP_NOT_SUPPORTED) := by
  cases mode <;> first
    | exact absurd rfl h1
    | exact absurd rfl h2
    | cases pk <;> rfl

/-- Witness for C4: a sign/verify-mode context holding both keys still
fails wrap. -/
theorem claim4_witness :
    (RsaCryptoContext.init (.plain "i") (some 1) (some 2) .SIGN_VERIFY).wrap 7 =
      .error (.cryptoEx .WRAP_NOT_SUPPORTED) :=
  claim4_wrap_inactive_always_fails (.plain "i") (some 1) (some 2)
    .SIGN_VERIFY (by decide) (by decide) 7

/-- C5: for every RsaCryptoContext whose signature algorithm is inactive
(any mode other than SIGN_VERIFY), sign delivers an empty byte sequence for
every input and verify delivers true for every data/signature input,
regardless of which keys the context holds. -/
theorem claim5_sign_verify_inactive_trivial (id : JStr)
    (sk pk : Option RawKey) (mode : RsaMode) (hm : mode ≠ .SIGN_VERIFY)
    (data : BytesV) (sig : Bytes) :
    (RsaCryptoContext.init id sk pk mode).sign data = .result [] ∧
    (RsaCryptoContext.init id sk pk mode).verify data sig = .result true := by
  cases mode <;> first
    | exact absurd rfl hm
    | exact ⟨rfl, rfl⟩

/-- Witness for C5: a keyless wrap/unwrap-mode context signs to the empty
sequence and verifies anything as true. -/
theorem claim5_witness :
    (RsaCryptoContext.init (.plain "i") none none .WRAP_UNWRAP_OAEP).sign
      (.raw [3]) = .result [] ∧
    (RsaCryptoContext.init (.plain "i") none none .WRAP_UNWRAP_OAEP).verify
      (.raw [3]) [9] = .result true :=
  claim5_sign_verify_inactive_trivial (.plain "i") none none
    .WRAP_UNWRAP_OAEP (by decide) (.raw [3]) [9]

/-- C2 counterexample: an encrypt/decrypt-mode context with no public key
fails on zero-length input with `ENCRYPT_NOT_SUPPORTED` instead of
returning the input — the missing-key check precedes the zero-length
bypass, so the claim as stated (for every context in an encrypt/decrypt
mode) is false. -/
theorem claim2_counterexample :
    (RsaCryptoContext.init (.plain "id") none none
      .ENCRYPT_DECRYPT_OAEP).encrypt (.raw []) =
      .error (.cryptoEx .ENCRYPT_NOT_SUPPORTED) := rfl

/-- C2 (amended): for every RsaCryptoContext in an encrypt/decrypt mode
that holds a public key, encrypt of the zero-length byte sequence delivers
that same zero-length sequence unchanged as the success result, without
invoking the asynchronous crypto-primitive provider. -/
theorem claim2_amended_encrypt_empty_bypass (id : JStr) (sk : Option RawKey)
    (pk : RawKey) (mode : RsaMode)
    (hm : mode = .ENCRYPT_DECRYPT_OAEP ∨ mode = .ENCRYPT_DECRYPT_PKCS1) :
    (RsaCryptoContext.init id sk (some pk) mode).encrypt (.raw []) =
      .result (.raw []) := by
  rcases hm with h | h <;> subst h <;> rfl

/-- Witness for C2 (amended): an OAEP encrypt/decrypt context holding a
public key returns empty input unchanged. -/
theorem claim2_witness :
    (RsaCryptoContext.init (.plain "id") none (some 5)
      .ENCRYPT_DECRYPT_OAEP).encrypt (.raw []) = .result (.raw []) :=
  claim2_amended_encrypt_empty_bypass (.plain "id") none 5
    .ENCRYPT_DECRYPT_OAEP (Or.inl rfl)

/-- C6: for every RsaCryptoContext in an encrypt/decrypt mode holding a
private key, decrypt of a (necessarily non-empty) input that parses as a V1
envelope whose embedded key identifier differs from the context identity
delivers `MslCryptoException(ENVELOPE_KEY_ID_MISMATCH)` — the key-id
mismatch ProtocolMismatchError — and the asynchronous decrypt primitive is
not invoked. -/
theorem claim6_decrypt_keyid_mismatch (id : JStr) (sk : RawKey)
    (pk : Option RawKey) (mode : RsaMode)
    (hm : mode = .ENCRYPT_DECRYPT_OAEP ∨ mode = .ENCRYPT_DECRYPT_PKCS1)
    (jo : JsonObj) (envlp : MslCiphertextEnvelope)
    (hp : MslCiphertextEnvelope.parse jo (some .V1) = .ok envlp)
    (hk : keyIdMatches envlp.keyId id = false) :
    (RsaCryptoContext.init id (some sk) pk mode).decrypt (.jsonText jo) =
      .error (.cryptoEx .ENVELOPE_KEY_ID_MISMATCH) := by
  rcases hm with h | h <;> subst h <;>
    simp [RsaCryptoContext.init, RsaCryptoContext.decrypt, bytesLen, hp, hk]

/-- Witness for C6: decrypting an envelope keyed "b" in a context with
identity "a" reports the key-id mismatch. -/
theorem claim6_witness :
    (RsaCryptoContext.init (.plain "a") (some 1) none
      .ENCRYPT_DECRYPT_OAEP).decrypt
      (.jsonText [("keyid", .str (.plain "b")),
        ("ciphertext", .str (.b64 [1])), ("sha256", .str (.plain "x"))]) =
      .error (.cryptoEx .ENVELOPE_KEY_ID_MISMATCH) :=
  claim6_decrypt_keyid_mismatch (.plain "a") 1 none .ENCRYPT_DECRYPT_OAEP
    (Or.inl rfl)
    [("keyid", .str (.plain "b")), ("ciphertext", .str (.b64 [1])),
      ("sha256", .str (.plain "x"))]
    { version := 1, keyId := some (.plain "b"), cipherSpec := none,
      iv := .undefined, ciphertext := [1] }
    rfl (by decide)

/-- C10: for every JSON object, parse with an explicit V2 version hint
still requires the object's own version field to equal 2 (in the code's
loose-equality sense): if the field is absent or not equal to 2, parsing
fails with `UNIDENTIFIED_CIPHERTEXT_ENVELOPE`, a ProtocolMismatchError,
even though the hint already fixed the version. -/
theorem claim10_hint_v2_still_checks_version (jo : JsonObj)
    (h : jsLooseEqTwo (jget jo "version") = false) :
    MslCiphertextEnvelope.parse jo (some .V2) =
      .error (.cryptoEx .UNIDENTIFIED_CIPHERTEXT_ENVELOPE) := by
  unfold MslCiphertextEnvelope.parse determineVersion parseKeyIdOrSpec
  simp [Version.num, h]

/-- Witness for C10: with a V2 hint and no version field at all, parsing
fails with the protocol-mismatch error. -/
theorem claim10_witness :
    MslCiphertextEnvelope.parse
      [("cipherspec", .str (.plain "AES/CBC/PKCS5Padding")),
        ("ciphertext", .str (.b64 [1]))] (some .V2) =
      .error (.cryptoEx .UNIDENTIFIED_CIPHERTEXT_ENVELOPE) :=
  claim10_hint_v2_still_checks_version
    [("cipherspec", .str (.plain "AES/CBC/PKCS5Padding")),
      ("ciphertext", .str (.b64 [1]))] (by decide)

/-- C7: for every V1 ciphertext envelope, toJSON succeeds and emits a
`sha256` field whose value is the fixed placeholder string "AA==",
regardless of the envelope's key identifier, iv, or ciphertext contents —
the value is never computed from the envelope's contents. -/
theorem claim7_sha256_fixed_placeholder (e : MslCiphertextEnvelope)
    (h : e.version = 1) :
    ∃ o, e.toJSON = .ok o ∧ jget o "sha256" = .str (.plain "AA==") := by
  refine ⟨("keyid", keyIdVal e.keyId) ::
      ((if e.iv.truthy = true then [("iv", JSValue.str (base64encodeVal e.iv))]
        else []) ++
        [("ciphertext", JSValue.str (base64encode e.ciphertext)),
          ("sha256", JSValue.str (JStr.plain "AA=="))]), ?_, ?_⟩
  · simp [MslCiphertextEnvelope.toJSON, h]
  · by_cases hiv : e.iv.truthy = true <;> simp [hiv, jget]

/-- Witness for C7: a concrete V1 envelope serializes with the placeholder
sha256 value. -/
theorem claim7_witness :
    ∃ o, (MslCiphertextEnvelope.create (.plain "kid") (some [9]) [1]).toJSON =
      .ok o ∧ jget o "sha256" = .str (.plain "AA==") :=
  claim7_sha256_fixed_placeholder
    (MslCiphertextEnvelope.create (.plain "kid") (some [9]) [1]) rfl

/-- C9: create with a first argument equal to a recognized cipher-spec
value produces a V2 envelope whose key identifier is null and whose cipher
specification is that value, even if the caller intended the string as a V1
key identifier; and create never produces a V1 envelope whose key
identifier equals a recognized cipher-spec value. -/
theorem claim9_create_version_by_value_identity (s : JStr) (iv : Option Bytes)
    (ct : Bytes) :
    (∀ cs, CipherSpec.fromString s = some cs →
      (MslCiphertextEnvelope.create s iv ct).version = 2 ∧
      (MslCiphertextEnvelope.create s iv ct).keyId = none ∧
      (MslCiphertextEnvelope.create s iv ct).cipherSpec = some cs) ∧
    (∀ k, (MslCiphertextEnvelope.create s iv ct).version = 1 →
      (MslCiphertextEnvelope.create s iv ct).keyId = some k →
      CipherSpec.fromString k = none) := by
  unfold MslCiphertextEnvelope.create MslCiphertextEnvelope.init
  cases hfs : CipherSpec.fromString s <;> simp_all

/-- Witness for C9: creating with the recognized spec string yields a V2
envelope with a null key identifier. -/
theorem claim9_witness :
    (MslCiphertextEnvelope.create (.plain "AES/CBC/PKCS5Padding") none
      [2]).version = 2 ∧
    (MslCiphertextEnvelope.create (.plain "AES/CBC/PKCS5Padding") none
      [2]).keyId = none :=
  ⟨((claim9_create_version_by_value_identity (.plain "AES/CBC/PKCS5Padding")
      none [2]).1 .AES_CBC_PKCS5Padding (by decide)).1,
    ((claim9_create_version_by_value_identity (.plain "AES/CBC/PKCS5Padding")
      none [2]).1 .AES_CBC_PKCS5Padding (by decide)).2.1⟩

/-- C3 counterexample: a JSON object whose version field is the number 0 —
a number that equals no recognized Version member — is parsed successfully
as a V1 envelope instead of failing with a protocol-mismatch error, because
0 is falsy and so takes the legacy V1 fallback. -/
theorem claim3_counterexample :
    MslCiphertextEnvelope.parse
      [("version", .num 0), ("keyid", .str (.plain "k")),
        ("ciphertext", .str (.b64 [1])), ("sha256", .str (.plain "AA=="))]
      none =
      .ok { version := 1, keyId := some (.plain "k"), cipherSpec := none,
            iv := .undefined, ciphertext := [1] } := rfl

/-- C3 (amended): with no version hint, a version field that is absent, not
of number type, NaN, or the (falsy) number zero makes the object parse
exactly as a V1 envelope; and a version field that is a nonzero number
equal to no recognized Version member makes parsing fail with
`UNIDENTIFIED_CIPHERTEXT_ENVELOPE`, a ProtocolMismatchError. -/
theorem claim3_amended_version_dispatch (o : JsonObj) :
    ((jget o "version").isNumberType = false ∨ jget o "version" = .nan ∨
        jget o "version" = .num 0 →
      MslCiphertextEnvelope.parse o none =
        MslCiphertextEnvelope.parse o (some .V1)) ∧
    (∀ n : Int, jget o "version" = .num n → n ≠ 0 → n ≠ 1 → n ≠ 2 →
      MslCiphertextEnvelope.parse o none =
        .error (.cryptoEx .UNIDENTIFIED_CIPHERTEXT_ENVELOPE)) := by
  constructor
  · intro h
    have hdet : determineVersion o none = .ok 1 := by
      unfold determineVersion
      cases hv : jget o "version" <;> simp_all [JSValue.isNumberType]
    unfold MslCiphertextEnvelope.parse
    rw [hdet]
    rfl
  · intro n hv h0 h1 h2
    unfold MslCiphertextEnvelope.parse determineVersion
    rw [hv]
    simp [h0, h1, h2]

/-- Witness for C3 (amended): version 99 fails with the protocol-mismatch
error; a string-typed version field falls back to V1 parsing; so does the
falsy numeric version 0. -/
theorem claim3_witness :
    MslCiphertextEnvelope.parse [("version", .num 99)] none =
      .error (.cryptoEx .UNIDENTIFIED_CIPHERTEXT_ENVELOPE) ∧
    MslCiphertextEnvelope.parse [("version", .str (.plain "two"))] none =
      MslCiphertextEnvelope.parse [("version", .str (.plain "two"))]
        (some .V1) ∧
    MslCiphertextEnvelope.parse [("version", .num 0)] none =
      MslCiphertextEnvelope.parse [("version", .num 0)] (some .V1) :=
  ⟨(claim3_amended_version_dispatch [("version", .num 99)]).2 99 rfl
      (by decide) (by decide) (by decide),
    (claim3_amended_version_dispatch [("version", .str (.plain "two"))]).1
      (Or.inl rfl),
    (claim3_amended_version_dispatch [("version", .num 0)]).1
      (Or.inr (Or.inr rfl))⟩

/-- C8 counterexample: the spec's own example object, with version 2 and
the unmapped cipher-spec string "UNKNOWN" but nothing else, fails with
`MslEncodingException(JSON_PARSE_ERROR)` — an EncodingError, not a
ProtocolMismatchError — because the mandatory-field type checks (here the
missing `ciphertext`) run before the cipher-spec mapping. -/
theorem claim8_counterexample :
    MslCiphertextEnvelope.parse
      [("version", .num 2), ("cipherspec", .str (.plain "UNKNOWN"))] none =
      .error (.encodingEx .JSON_PARSE_ERROR) := rfl

/-- C8 (amended): for every JSON object parsed as a V2 envelope whose
mandatory fields typecheck (ciphertext a string, iv absent/falsy or a
string) and whose cipherspec field is a string that maps to no recognized
CipherSpec value, parse fails with `UNIDENTIFIED_CIPHERSPEC`, a
ProtocolMismatchError. -/
theorem claim8_amended_unmapped_cipherspec (o : JsonObj) (s : JStr)
    (hv : jget o "version" = .num 2)
    (hcs : jget o "cipherspec" = .str s)
    (hun : CipherSpec.fromString s = none)
    (hct : (jget o "ciphertext").isString = true)
    (hiv : (jget o "iv").truthy = false ∨ (jget o "iv").isString = true) :
    MslCiphertextEnvelope.parse o none =
      .error (.cryptoEx .UNIDENTIFIED_CIPHERSPEC) := by
  unfold MslCiphertextEnvelope.parse determineVersion parseKeyIdOrSpec
  rw [hv]
  rcases hiv with hiv | hiv <;>
    simp [hcs, hun, hct, hiv, jsLooseEqTwo, hv]

/-- Witness for C8 (amended): the spec's example completed with a string
ciphertext field fails with the protocol-mismatch error. -/
theorem claim8_witness :
    MslCiphertextEnvelope.parse
      [("version", .num 2), ("cipherspec", .str (.plain "UNKNOWN")),
        ("ciphertext", .str (.plain "x"))] none =
      .error (.cryptoEx .UNIDENTIFIED_CIPHERSPEC) :=
  claim8_amended_unmapped_cipherspec
    [("version", .num 2), ("cipherspec", .str (.plain "UNKNOWN")),
      ("ciphertext", .str (.plain "x"))] (.plain "UNKNOWN")
    rfl rfl (by decide) rfl (Or.inl rfl)

/-- C1 counterexample: with a present-but-empty iv byte sequence, V1
create→serialize→parse does not return the original iv: the empty byte
array serializes to the empty base64 string, which is falsy, so parse skips
the decode and stores the empty string itself — the parsed envelope's iv is
a string, not the original empty byte sequence. -/
theorem claim1_counterexample :
    ((MslCiphertextEnvelope.create (.plain "kid") (some []) [1]).toJSON.bind
        (fun o => MslCiphertextEnvelope.parse o none)).map
        (fun e => e.iv) = .ok (.str (.b64 [])) ∧
    JSValue.str (.b64 []) ≠ ivOfOpt (some []) := by
  exact ⟨rfl, by decide⟩

/-- C1 (amended): for every key identifier string that is not a recognized
cipher-spec value (so create yields a V1 envelope), every iv that is either
absent or a non-empty byte sequence, and every ciphertext byte sequence, V1
create→serialize→parse (with no version hint) returns the very same
envelope, and in particular identical keyId, iv, and ciphertext; the sha256
field is never compared against a computed digest. -/
theorem claim1_amended_v1_roundtrip (keyId : JStr) (iv : Option Bytes)
    (ct : Bytes) (hk : CipherSpec.fromString keyId = none)
    (hiv : iv ≠ some []) :
    ∃ o, (MslCiphertextEnvelope.create keyId iv ct).toJSON = .ok o ∧
      MslCiphertextEnvelope.parse o none =
        .ok (MslCiphertextEnvelope.create keyId iv ct) ∧
      (MslCiphertextEnvelope.create keyId iv ct).keyId = some keyId ∧
      (MslCiphertextEnvelope.create keyId iv ct).iv = ivOfOpt iv ∧
      (MslCiphertextEnvelope.create keyId iv ct).ciphertext = ct := by
  rcases iv with _ | b
  · refine ⟨[("keyid", .str keyId),
      ("ciphertext", .str (base64encode ct)),
      ("sha256", .str (.plain "AA=="))], ?_, ?_, ?_, ?_, ?_⟩ <;>
      simp [MslCiphertextEnvelope.create, MslCiphertextEnvelope.init,
        MslCiphertextEnvelope.toJSON, MslCiphertextEnvelope.parse,
        determineVersion, parseKeyIdOrSpec, decodeIvCt, jget, ivOfOpt,
        base64encode, base64decode, JSValue.truthy, JSValue.isString,
        JStr.truthy, keyIdVal, hk]
  · rcases b with _ | ⟨x, xs⟩
    · exact absurd rfl hiv
    · refine ⟨[("keyid", .str keyId),
        ("iv", .str (base64encode (x :: xs))),
        ("ciphertext", .str (base64encode ct)),
        ("sha256", .str (.plain "AA=="))], ?_, ?_, ?_, ?_, ?_⟩ <;>
        simp [MslCiphertextEnvelope.create, MslCiphertextEnvelope.init,
          MslCiphertextEnvelope.toJSON, MslCiphertextEnvelope.parse,
          determineVersion, parseKeyIdOrSpec, decodeIvCt, jget, ivOfOpt,
          base64encode, base64encodeVal, base64decode, JSValue.truthy,
          JSValue.isString, JStr.truthy, keyIdVal, hk]

/-- Witness for C1 (amended): a concrete V1 round trip with a non-empty iv
reproduces keyId, iv, and ciphertext. -/
theorem claim1_witness :
    ∃ o, (MslCiphertextEnvelope.create (.plain "kid") (some [9]) [1, 2]).toJSON
        = .ok o ∧
      MslCiphertextEnvelope.parse o none =
        .ok (MslCiphertextEnvelope.create (.plain "kid") (some [9]) [1, 2]) ∧
      (MslCiphertextEnvelope.create (.plain "kid") (some [9]) [1, 2]).keyId =
        some (.plain "kid") ∧
      (MslCiphertextEnvelope.create (.plain "kid") (some [9]) [1, 2]).iv =
        ivOfOpt (some [9]) ∧
      (MslCiphertextEnvelope.create (.plain "kid") (some [9]) [1, 2]).ciphertext
        = [1, 2] :=
  claim1_amended_v1_roundtrip (.plain "kid") (some [9]) [1, 2] (by decide)
    (by decide)

end Msl
